import Mathlib

/-
Shallow embedding of the CW-20 token ledger in
src/Rust_Implementation/CW-20/src/main.rs.

The Rust `State` holds five storage handles (balances, total_supply,
minter, cap, frozen_balances).  We embed the observable storage contents:
the keyed tables (`balances`, `frozen_balances`) become association lists
with the storage operations may_load / save / remove, and the scalar
records become fields.  Per the source, `balance` and `total_supply`
default missing entries to zero and `is_frozen` defaults to false; the
`cap` record is optional (the transfer path consults it with `map_or`).

Errors in the source are `StdError::generic_err` with fixed message
strings; each distinct message is one constructor below, and `arithmetic`
stands for the abort of an overflowing `Uint128` addition.

Operations mutate storage in place and return a `StdResult`; a failure
after an earlier write leaves that write committed.  We therefore embed
each mutating operation as `State -> Except StdError Unit x State`, where
the second component is the storage contents when the call returns,
whether it returned `Ok` or `Err`.
-/

/-- Storage `may_load` on a keyed storage namespace: the value stored under `k`,
if any (first binding wins, as storage holds one value per key). -/
def mapLoad (m : List (String × α)) (k : String) : Option α :=
  match m with
  | [] => none
  | e :: rest => if e.1 = k then some e.2 else mapLoad rest k

/-- Storage `remove` on a keyed storage namespace: drop every binding of `k`. -/
def mapRemove (m : List (String × α)) (k : String) : List (String × α) :=
  match m with
  | [] => []
  | e :: rest => if e.1 = k then mapRemove rest k else e :: mapRemove rest k

/-- Storage `save` on a keyed storage namespace: `k` now maps to `v`. -/
def mapSave (m : List (String × α)) (k : String) (v : α) : List (String × α) :=
  (k, v) :: mapRemove m k

/-- The error kinds produced by the ledger; each corresponds to one
`StdError::generic_err` message of the source (or, for `arithmetic`, to
the abort of an overflowing checked `Uint128` addition). -/
inductive StdError where
  /-- message: Cannot mint more tokens than the minter cap -/
  | capExceededMint
  /-- message: Cannot transfer from a frozen account -/
  | accountFrozen
  /-- message: Cannot send more tokens than you have -/
  | insufficientBalance
  /-- message: Cannot hold more tokens than the cap -/
  | capExceededTransfer
  /-- message: Unauthorized -/
  | unauthorized
  /-- overflow of a `Uint128` addition -/
  | arithmetic
deriving DecidableEq

deriving instance DecidableEq for Except

/-- Largest value of the unsigned 128-bit `Uint128` amounts. -/
def UINT128_MAX : Nat := 2 ^ 128 - 1

/-- Modelled from the spec: `Uint128` addition is `cosmwasm_std` library
code absent from src; the spec requires checked unsigned addition whose
overflow fails the enclosing operation with an `Arithmetic` error, never
wrapping or saturating. -/
def addU128 (a b : Nat) : Except StdError Nat :=
  if a + b ≤ UINT128_MAX then Except.ok (a + b) else Except.error StdError.arithmetic

/-- The minter record: current minter identifier and the cap it installed. -/
structure MinterResponse where
  minter : String
  cap : Option Nat
deriving DecidableEq

/-- Observable storage contents of the Rust `State`. -/
structure State where
  balances : List (String × Nat)
  total_supply : Nat
  minter : MinterResponse
  cap : Option Nat
  frozen_balances : List (String × Bool)
deriving DecidableEq

/-- Source `State::balance`: stored balance, defaulting a missing entry to zero. -/
def State.balance (s : State) (address : String) : Nat :=
  (mapLoad s.balances address).getD 0

/-- Source `State::is_frozen`: stored flag, defaulting a missing entry to false. -/
def State.is_frozen (s : State) (address : String) : Bool :=
  (mapLoad s.frozen_balances address).getD false

/-- Source `State::update_cap`: save the standalone cap record. -/
def State.update_cap (s : State) (new_cap : Nat) : State :=
  { s with cap := some new_cap }

/-- Source `State::update_minter`: save a minter record with `cap: Some(cap)`,
then update the standalone cap record to the same value. -/
def State.update_minter (s : State) (minter : String) (cap : Nat) : State :=
  State.update_cap { s with minter := { minter := minter, cap := some cap } } cap

/-- Source `State::minter_allowed`: caller equals the stored minter and the
minter record has a cap set. -/
def State.minter_allowed (s : State) (sender : String) : Bool :=
  (s.minter.minter == sender) && s.minter.cap.isSome

/-- Source `State::freeze`: save `true` under the address. -/
def State.freeze (s : State) (address : String) : State :=
  { s with frozen_balances := mapSave s.frozen_balances address true }

/-- Source `State::unfreeze`: remove the entry for the address. -/
def State.unfreeze (s : State) (address : String) : State :=
  { s with frozen_balances := mapRemove s.frozen_balances address }

/-- Source `State::mint`: fail `capExceededMint` when the minter record's cap is
set and `total_supply + amount` exceeds it (the sum is a checked
`Uint128` addition); then credit the recipient's balance and increase the
total supply, each by a checked addition committed separately, in that
order. -/
def State.mint (s : State) (recipient : String) (amount : Nat) :
    Except StdError Unit × State :=
  let capCheck : Except StdError Unit :=
    match s.minter.cap with
    | some cap =>
      match addU128 s.total_supply amount with
      | Except.error e => Except.error e
      | Except.ok sum =>
        if cap < sum then Except.error StdError.capExceededMint else Except.ok ()
    | none => Except.ok ()
  match capCheck with
  | Except.error e => (Except.error e, s)
  | Except.ok _ =>
    match addU128 (s.balance recipient) amount with
    | Except.error e => (Except.error e, s)
    | Except.ok new_balance =>
      let s1 : State := { s with balances := mapSave s.balances recipient new_balance }
      match addU128 s1.total_supply amount with
      | Except.error e => (Except.error e, s1)
      | Except.ok new_supply => (Except.ok (), { s1 with total_supply := new_supply })

/-- Source `State::transfer`: reject a frozen sender; no-op when sender equals
recipient or the amount is zero; reject an insufficient balance; debit
the sender (committed); then credit the recipient, where the update
closure fails `capExceededTransfer` (committing nothing for the
recipient, but keeping the already-committed debit) when the standalone
cap record is set and the recipient's new balance exceeds it. -/
def State.transfer (s : State) (sender recipient : String) (amount : Nat) :
    Except StdError Unit × State :=
  if s.is_frozen sender then (Except.error StdError.accountFrozen, s)
  else
    let sender_balance := s.balance sender
    if sender = recipient then (Except.ok (), s)
    else if amount = 0 then (Except.ok (), s)
    else if sender_balance < amount then (Except.error StdError.insufficientBalance, s)
    else
      let s1 : State := { s with balances := mapSave s.balances sender (sender_balance - amount) }
      match addU128 (s1.balance recipient) amount with
      | Except.error e => (Except.error e, s1)
      | Except.ok new_balance =>
        match s1.cap with
        | some cap =>
          if cap < new_balance then (Except.error StdError.capExceededTransfer, s1)
          else (Except.ok (), { s1 with balances := mapSave s1.balances recipient new_balance })
        | none => (Except.ok (), { s1 with balances := mapSave s1.balances recipient new_balance })

/-- The decoded commands of `execute` (address validation is performed by
the host before the ledger is invoked, so addresses arrive canonical). -/
inductive HandleMsg where
  | Transfer (recipient : String) (amount : Nat)
  | Mint (recipient : String) (amount : Nat)
  | UpdateMinter (minter : String) (cap : Option Nat)
  | Freeze (address : String)
  | Unfreeze (address : String)
deriving DecidableEq

/-- Source `State::execute`: dispatch a command for the message sender.  Every
command but `Transfer` first requires `minter_allowed(sender)`;
`UpdateMinter` replaces a missing cap by `Uint128::default()`, zero. -/
def State.execute (s : State) (sender : String) (msg : HandleMsg) :
    Except StdError Unit × State :=
  match msg with
  | HandleMsg.Transfer recipient amount => s.transfer sender recipient amount
  | HandleMsg.Mint recipient amount =>
    if !(s.minter_allowed sender) then (Except.error StdError.unauthorized, s)
    else s.mint recipient amount
  | HandleMsg.UpdateMinter minter cap =>
    if !(s.minter_allowed sender) then (Except.error StdError.unauthorized, s)
    else (Except.ok (), s.update_minter minter (cap.getD 0))
  | HandleMsg.Freeze address =>
    if !(s.minter_allowed sender) then (Except.error StdError.unauthorized, s)
    else (Except.ok (), s.freeze address)
  | HandleMsg.Unfreeze address =>
    if !(s.minter_allowed sender) then (Except.error StdError.unauthorized, s)
    else (Except.ok (), s.unfreeze address)

/-- Modelled from the spec: the minter record and the cap are created at
contract instantiation, which is outside the ledger core; a fresh ledger
has empty tables, zero supply, and an installed minter with its cap. -/
def initialState (minter0 : String) (cap0 : Nat) : State :=
  { balances := [], total_supply := 0,
    minter := { minter := minter0, cap := some cap0 }, cap := some cap0,
    frozen_balances := [] }

/-- Sum of all stored account balances. -/
def sumBalances (m : List (String × Nat)) : Nat :=
  (m.map Prod.snd).sum

/-- Run a sequence of (sender, command) pairs, keeping the storage left
behind by each call whether it succeeded or failed. -/
def execMsgs (s : State) (msgs : List (String × HandleMsg)) : State :=
  msgs.foldl (fun acc m => (acc.execute m.1 m.2).2) s

/-- A sample account identifier. -/
def alice : String := "alice"

/-- A sample account identifier. -/
def bob : String := "bob"

/-- A sample minter identifier. -/
def minterAddr : String := "minter"

/-- A state in which `alice` holds 600 tokens and the standalone cap
record is 100 (reachable: mint 600 under cap 1000, then lower the cap). -/
def sCapBug : State :=
  { balances := [(alice, 600)], total_supply := 600,
    minter := { minter := minterAddr, cap := some 100 }, cap := some 100,
    frozen_balances := [] }

/-- A state at the supply ceiling: total supply and the minter cap both
equal `UINT128_MAX`. -/
def sSupplyMax : State :=
  { balances := [(alice, UINT128_MAX)], total_supply := UINT128_MAX,
    minter := { minter := minterAddr, cap := some UINT128_MAX },
    cap := some UINT128_MAX, frozen_balances := [] }

/-- A state whose recorded supply is far below `alice`'s stored balance
of `UINT128_MAX`, with a small minter cap. -/
def sBigBalance : State :=
  { balances := [(alice, UINT128_MAX)], total_supply := 0,
    minter := { minter := minterAddr, cap := some 10 }, cap := some 10,
    frozen_balances := [] }

/-- A state with no cap configured on the minter record and the supply at
the ceiling. -/
def sNoCapMax : State :=
  { balances := [], total_supply := UINT128_MAX,
    minter := { minter := minterAddr, cap := none }, cap := none,
    frozen_balances := [] }

/-- A state in which `alice` is frozen. -/
def sFrozen : State :=
  { balances := [(alice, 50)], total_supply := 50,
    minter := { minter := minterAddr, cap := some 1000 }, cap := some 1000,
    frozen_balances := [(alice, true)] }

/-- The command sequence that breaks the supply invariant: mint 600 to
`alice` under cap 1000, lower the cap to 100, then have `alice` attempt
to send her 600 tokens to `bob`. -/
def bugTrace : List (String × HandleMsg) :=
  [(minterAddr, HandleMsg.Mint alice 600),
   (minterAddr, HandleMsg.UpdateMinter minterAddr (some 100)),
   (alice, HandleMsg.Transfer bob 600)]


/-- Loading after a remove: the removed key is gone, others unchanged. -/
theorem mapLoad_mapRemove (m : List (String × α)) (k k' : String) :
    mapLoad (mapRemove m k) k' = if k' = k then none else mapLoad m k' := by
  induction m with
  | nil => simp [mapRemove, mapLoad]
  | cons e rest ih =>
    by_cases h1 : e.1 = k <;> by_cases h2 : k' = k
    · subst h2
      simp [mapRemove, h1, ih]
    · have h4 : ¬ k = k' := fun hc => h2 hc.symm
      simp [mapRemove, mapLoad, h1, h2, h4, ih]
    · subst h2
      simp [mapRemove, mapLoad, h1, ih]
    · simp [mapRemove, mapLoad, h1, h2, ih]

/-- Loading after a save: the saved key holds the new value, others are
unchanged. -/
theorem mapLoad_mapSave (m : List (String × α)) (k k' : String) (v : α) :
    mapLoad (mapSave m k v) k' = if k' = k then some v else mapLoad m k' := by
  by_cases h : k' = k
  · simp [mapSave, mapLoad, h]
  · have h2 : ¬ k = k' := fun hc => h hc.symm
    simp [mapSave, mapLoad, h, h2, mapLoad_mapRemove]

/-- Balance read-back after a balance save. -/
theorem balance_after_save (s : State) (k k' : String) (v : Nat) :
    ({ s with balances := mapSave s.balances k v } : State).balance k' =
      if k' = k then v else s.balance k' := by
  by_cases h : k' = k <;> simp [State.balance, mapLoad_mapSave, h]

/-- Claim C5: a transfer from a frozen sender fails with `AccountFrozen`
and leaves the whole state unchanged, for every recipient and every
amount, including a zero amount and a self-transfer, because the frozen
check precedes the no-op fast path. -/
theorem transfer_frozen_rejected (s : State) (sender recipient : String) (amount : Nat)
    (h : s.is_frozen sender = true) :
    (s.transfer sender recipient amount).1 = Except.error StdError.accountFrozen ∧
    (s.transfer sender recipient amount).2 = s := by
  simp [State.transfer, h]

/-- Witness for C5: in a state where `alice` is frozen, a zero-amount
self-transfer by `alice` fails with `AccountFrozen` and changes nothing. -/
theorem transfer_frozen_rejected_witness :
    (sFrozen.transfer alice alice 0).1 = Except.error StdError.accountFrozen ∧
    (sFrozen.transfer alice alice 0).2 = sFrozen :=
  transfer_frozen_rejected sFrozen alice alice 0 (by decide)

/-- Claim C6: for a non-frozen sender, a self-transfer or a zero-amount
transfer succeeds and changes no state at all, regardless of the sender's
balance, because the no-op fast path precedes the insufficient-balance
check. -/
theorem transfer_noop_path (s : State) (sender recipient : String) (amount : Nat)
    (hf : s.is_frozen sender = false) (h : sender = recipient ∨ amount = 0) :
    (s.transfer sender recipient amount).1 = Except.ok () ∧
    (s.transfer sender recipient amount).2 = s := by
  by_cases hsr : sender = recipient
  · subst hsr
    simp [State.transfer, hf]
  · rcases h with h | h
    · exact absurd h hsr
    · simp [State.transfer, hf, hsr, h]

/-- Witness for C6: in a fresh ledger, a self-transfer of 5 tokens by
`alice`, whose balance is 0, succeeds and changes nothing. -/
theorem transfer_noop_path_witness :
    ((initialState minterAddr 7).transfer alice alice 5).1 = Except.ok () ∧
    ((initialState minterAddr 7).transfer alice alice 5).2 = initialState minterAddr 7 :=
  transfer_noop_path (initialState minterAddr 7) alice alice 5 (by decide) (Or.inl rfl)

/-- Claim C7: when the caller is not the currently authorized minter,
each of the Mint, Freeze, Unfreeze and UpdateMinter commands fails with
`Unauthorized` and leaves the whole ledger state unchanged. -/
theorem execute_admin_unauthorized (s : State) (caller : String) (msg : HandleMsg)
    (hmsg : ∀ recipient amount, msg ≠ HandleMsg.Transfer recipient amount)
    (h : s.minter_allowed caller = false) :
    (s.execute caller msg).1 = Except.error StdError.unauthorized ∧
    (s.execute caller msg).2 = s := by
  cases msg with
  | Transfer recipient amount => exact absurd rfl (hmsg recipient amount)
  | Mint recipient amount => simp [State.execute, h]
  | UpdateMinter minter cap => simp [State.execute, h]
  | Freeze address => simp [State.execute, h]
  | Unfreeze address => simp [State.execute, h]

/-- Witness for C7: `alice`, who is not the minter, is refused a Freeze
command with `Unauthorized` and the state is untouched. -/
theorem execute_admin_unauthorized_witness :
    (sCapBug.execute alice (HandleMsg.Freeze bob)).1 = Except.error StdError.unauthorized ∧
    (sCapBug.execute alice (HandleMsg.Freeze bob)).2 = sCapBug :=
  execute_admin_unauthorized sCapBug alice (HandleMsg.Freeze bob)
    (fun recipient amount h => by cases h) (by decide)

/-- Claim C8: `minter_allowed(caller)` is true exactly when the caller
equals the stored minter identifier and the minter record's cap is set;
in particular a minter installed with no cap is never authorized. -/
theorem minter_allowed_iff (s : State) (caller : String) :
    s.minter_allowed caller = true ↔
      (s.minter.minter = caller ∧ s.minter.cap.isSome = true) := by
  simp [State.minter_allowed]

/-- Claim C9: freezing makes `is_frozen` true and is idempotent;
unfreezing an account, frozen or not, leaves `is_frozen` false; and
unfreeze removes the stored entry outright rather than writing an
explicit false, so absence denotes not-frozen. -/
theorem freeze_unfreeze_semantics (s : State) (x : String) :
    (s.freeze x).is_frozen x = true ∧
    ((s.freeze x).freeze x).is_frozen x = true ∧
    (s.unfreeze x).is_frozen x = false ∧
    mapLoad (s.unfreeze x).frozen_balances x = none := by
  simp [State.freeze, State.unfreeze, State.is_frozen, mapLoad_mapSave, mapLoad_mapRemove]

/-- Claim C1 (code bug evidence): in a reachable state where `alice`
holds 600 and the standalone cap record is 100, `transfer(alice, bob,
600)` fails with the transfer cap error, yet the sender debit stays
committed: `alice`'s balance drops from 600 to 0 instead of being rolled
back, while `bob` receives nothing and the supply is untouched. -/
theorem transfer_cap_fail_commits_debit :
    (sCapBug.transfer alice bob 600).1 = Except.error StdError.capExceededTransfer ∧
    sCapBug.cap = some 100 ∧
    100 < sCapBug.balance bob + 600 ∧
    sCapBug.balance alice = 600 ∧
    ((sCapBug.transfer alice bob 600).2).balance alice = 0 ∧
    ((sCapBug.transfer alice bob 600).2).balance bob = 0 ∧
    ((sCapBug.transfer alice bob 600).2).total_supply = 600 := by
  refine ⟨by decide, rfl, by decide, by decide, by decide, by decide, by decide⟩

/-- Claim C4 (code bug evidence): running mint 600 to `alice` under cap
1000, then lowering the cap to 100, then `alice` transferring her 600 to
`bob`, leaves a reachable state whose total supply is 600 while the sum
of all account balances is 0 — the supply invariant does not hold on all
reachable states. -/
theorem supply_invariant_broken_by_trace :
    (execMsgs (initialState minterAddr 1000) bugTrace).total_supply = 600 ∧
    sumBalances (execMsgs (initialState minterAddr 1000) bugTrace).balances = 0 :=
  ⟨by decide, by decide⟩

/-- Counterexample for C3: two concrete refutations of the claim as
stated over all states.  First, with the minter cap and the supply both
at `UINT128_MAX`, minting 1 satisfies the claim's cap-exceeded premise
(`total_supply + amount > cap` with the cap set) yet the result is the
arithmetic-overflow error, not `CapExceeded`.  Second, with cap 10,
supply 0 and `alice` already holding `UINT128_MAX`, the claim's success
premise (`total_supply + amount <= cap`) holds for minting 5 to `alice`,
yet the mint does not succeed: the balance credit overflows. -/
theorem mint_claim_counterexample :
    (sSupplyMax.minter.cap = some UINT128_MAX ∧
      UINT128_MAX < sSupplyMax.total_supply + 1 ∧
      (sSupplyMax.mint bob 1).1 = Except.error StdError.arithmetic ∧
      (sSupplyMax.mint bob 1).1 ≠ Except.error StdError.capExceededMint) ∧
    (sBigBalance.minter.cap = some 10 ∧
      sBigBalance.total_supply + 5 ≤ 10 ∧
      (sBigBalance.mint alice 5).1 = Except.error StdError.arithmetic ∧
      (sBigBalance.mint alice 5).1 ≠ Except.ok ()) :=
  ⟨⟨rfl, by decide, by decide, by decide⟩, ⟨rfl, by decide, by decide, by decide⟩⟩

/-- Claim C3 as amended: provided neither checked addition overflows
(`balance(recipient) + amount` and `total_supply + amount` within
`Uint128`), a mint succeeds when the minter cap is unset or
`total_supply + amount <= cap`, increasing the supply and the recipient's
balance by exactly the amount and leaving every other balance unchanged;
and when the cap is set and `total_supply + amount > cap` it fails with
`CapExceeded` and changes nothing. -/
theorem mint_cap_semantics (s : State) (recipient : String) (amount : Nat)
    (hb : s.balance recipient + amount ≤ UINT128_MAX)
    (hs : s.total_supply + amount ≤ UINT128_MAX) :
    ((s.minter.cap = none ∨ ∃ c, s.minter.cap = some c ∧ s.total_supply + amount ≤ c) →
      (s.mint recipient amount).1 = Except.ok () ∧
      ((s.mint recipient amount).2).total_supply = s.total_supply + amount ∧
      ((s.mint recipient amount).2).balance recipient = s.balance recipient + amount ∧
      ∀ other : String, other ≠ recipient →
        ((s.mint recipient amount).2).balance other = s.balance other) ∧
    (∀ c, s.minter.cap = some c → c < s.total_supply + amount →
      (s.mint recipient amount).1 = Except.error StdError.capExceededMint ∧
      (s.mint recipient amount).2 = s) := by
  constructor
  · intro hcap
    rcases hcap with hnone | ⟨c, hc, hle⟩
    · refine ⟨?_, ?_, ?_, ?_⟩
      · simp [State.mint, addU128, hnone, hb, hs]
      · simp [State.mint, addU128, hnone, hb, hs]
      · simp [State.mint, addU128, hnone, hb, hs]
        simp [State.balance, mapLoad_mapSave]
      · intro other ho
        simp [State.mint, addU128, hnone, hb, hs]
        simp [State.balance, mapLoad_mapSave, ho]
    · have hnlt : ¬ c < s.total_supply + amount := not_lt.mpr hle
      refine ⟨?_, ?_, ?_, ?_⟩
      · simp [State.mint, addU128, hc, hb, hs, hnlt]
      · simp [State.mint, addU128, hc, hb, hs, hnlt]
      · simp [State.mint, addU128, hc, hb, hs, hnlt]
        simp [State.balance, mapLoad_mapSave]
      · intro other ho
        simp [State.mint, addU128, hc, hb, hs, hnlt]
        simp [State.balance, mapLoad_mapSave, ho]
  · intro c hc hclt
    constructor <;> simp [State.mint, addU128, hc, hs, hclt]

/-- Witness for the amended C3: in a fresh ledger with minter cap 1000,
minting 600 to `alice` succeeds and raises the supply by exactly 600,
and a follow-up mint of 500 (which would push the supply to 1100) fails
with `CapExceeded` and leaves the state unchanged. -/
theorem mint_cap_semantics_witness :
    (((initialState minterAddr 1000).mint alice 600).1 = Except.ok () ∧
      ((((initialState minterAddr 1000).mint alice 600).2)).total_supply =
        (initialState minterAddr 1000).total_supply + 600) ∧
    ((((initialState minterAddr 1000).mint alice 600).2).mint alice 500).1 =
      Except.error StdError.capExceededMint :=
  have h1 := mint_cap_semantics (initialState minterAddr 1000) alice 600
    (by decide) (by decide)
  have h2 := mint_cap_semantics (((initialState minterAddr 1000).mint alice 600).2) alice 500
    (by decide) (by decide)
  ⟨⟨(h1.1 (Or.inr ⟨1000, rfl, by decide⟩)).1, (h1.1 (Or.inr ⟨1000, rfl, by decide⟩)).2.1⟩,
   (h2.2 1000 (by decide) (by decide)).1⟩

/-- Claim C2: every credit performed by mint or transfer goes through the
checked `Uint128` addition.  If the supply sum overflows, mint fails with
the arithmetic error; if the balance credit overflows (and the cap check
does not reject first), mint fails with the arithmetic error; on the
transfer path reaching the recipient credit, a balance overflow fails with
the arithmetic error; and a successful mint records the exact
(unwrapped, unsaturated) sums. -/
theorem credit_overflow_fails_arithmetic :
    (∀ (s : State) (recipient : String) (amount : Nat),
      UINT128_MAX < s.total_supply + amount →
      (s.mint recipient amount).1 = Except.error StdError.arithmetic) ∧
    (∀ (s : State) (recipient : String) (amount : Nat),
      UINT128_MAX < s.balance recipient + amount →
      (s.minter.cap = none ∨ ∃ c, s.minter.cap = some c ∧ s.total_supply + amount ≤ c) →
      (s.mint recipient amount).1 = Except.error StdError.arithmetic) ∧
    (∀ (s : State) (sender recipient : String) (amount : Nat),
      s.is_frozen sender = false → sender ≠ recipient → amount ≠ 0 →
      amount ≤ s.balance sender →
      UINT128_MAX < s.balance recipient + amount →
      (s.transfer sender recipient amount).1 = Except.error StdError.arithmetic) ∧
    (∀ (s : State) (recipient : String) (amount : Nat),
      (s.mint recipient amount).1 = Except.ok () →
      ((s.mint recipient amount).2).balance recipient = s.balance recipient + amount ∧
      ((s.mint recipient amount).2).total_supply = s.total_supply + amount) := by
  refine ⟨?_, ?_, ?_, ?_⟩
  · intro s recipient amount hsum
    have hns : ¬ s.total_supply + amount ≤ UINT128_MAX := not_le_of_lt hsum
    cases hcap : s.minter.cap with
    | some c => simp [State.mint, addU128, hcap, hns]
    | none =>
      by_cases hbo : s.balance recipient + amount ≤ UINT128_MAX <;>
        simp [State.mint, addU128, hcap, hns, hbo]
  · intro s recipient amount hbo hcap
    have hnb : ¬ s.balance recipient + amount ≤ UINT128_MAX := not_le_of_lt hbo
    rcases hcap with hnone | ⟨c, hc, hle⟩
    · simp [State.mint, addU128, hnone, hnb]
    · by_cases hso : s.total_supply + amount ≤ UINT128_MAX
      · have hnlt : ¬ c < s.total_supply + amount := not_lt.mpr hle
        simp [State.mint, addU128, hc, hso, hnlt, hnb]
      · simp [State.mint, addU128, hc, hso]
  · intro s sender recipient amount hf hsr hz hle hbo
    have hnl : ¬ (mapLoad s.balances sender).getD 0 < amount := by
      simpa [State.balance] using not_lt.mpr hle
    have hrs : ¬ recipient = sender := fun hcon => hsr hcon.symm
    have hnb : ¬ (mapLoad s.balances recipient).getD 0 + amount ≤ UINT128_MAX := by
      simpa [State.balance] using not_le_of_lt hbo
    simp [State.transfer, hf, hsr, hz, State.balance, hnl, mapLoad_mapSave, hrs, addU128, hnb]
  · intro s recipient amount hok
    cases hcap : s.minter.cap with
    | some c =>
      by_cases hso : s.total_supply + amount ≤ UINT128_MAX
      · by_cases hclt : c < s.total_supply + amount
        · simp [State.mint, addU128, hcap, hso, hclt] at hok
        · by_cases hbo : s.balance recipient + amount ≤ UINT128_MAX
          · constructor
            · simp [State.mint, addU128, hcap, hso, hclt, hbo]
              simp [State.balance, mapLoad_mapSave]
            · simp [State.mint, addU128, hcap, hso, hclt, hbo]
          · simp [State.mint, addU128, hcap, hso, hclt, hbo] at hok
      · simp [State.mint, addU128, hcap, hso] at hok
    | none =>
      by_cases hbo : s.balance recipient + amount ≤ UINT128_MAX
      · by_cases hso : s.total_supply + amount ≤ UINT128_MAX
        · constructor
          · simp [State.mint, addU128, hcap, hso, hbo]
            simp [State.balance, mapLoad_mapSave]
          · simp [State.mint, addU128, hcap, hso, hbo]
        · simp [State.mint, addU128, hcap, hso, hbo] at hok
      · simp [State.mint, addU128, hcap, hbo] at hok

/-- Witness for C2: with the minter cap unset and the supply already at
`UINT128_MAX`, minting one more token fails with the arithmetic error. -/
theorem credit_overflow_fails_arithmetic_witness :
    UINT128_MAX < sNoCapMax.total_supply + 1 ∧
    (sNoCapMax.mint alice 1).1 = Except.error StdError.arithmetic :=
  ⟨by decide, credit_overflow_fails_arithmetic.1 sNoCapMax alice 1 (by decide)⟩

/-- Claim C10: an authorized UpdateMinter always succeeds and installs a
minter record whose cap is `Some` — a command carrying no cap installs
`Some 0` — with the standalone cap record set to the same value; the
newly installed minter is authorized, yet any mint of a positive amount
under the zero cap fails during the cap check (with `CapExceeded`, or
with the arithmetic error in the corner where the supply sum itself
overflows) and never succeeds. -/
theorem update_minter_none_installs_zero_cap (s : State) (caller new_minter : String)
    (h : s.minter_allowed caller = true) :
    (s.execute caller (HandleMsg.UpdateMinter new_minter none)).1 = Except.ok () ∧
    (s.execute caller (HandleMsg.UpdateMinter new_minter none)).2 =
      s.update_minter new_minter 0 ∧
    (∀ capOpt : Option Nat,
      ((s.execute caller (HandleMsg.UpdateMinter new_minter capOpt)).2).minter.cap =
        some (capOpt.getD 0)) ∧
    (s.update_minter new_minter 0).minter = { minter := new_minter, cap := some 0 } ∧
    (s.update_minter new_minter 0).cap = some 0 ∧
    (s.update_minter new_minter 0).minter_allowed new_minter = true ∧
    (∀ (recipient : String) (amount : Nat), 0 < amount →
      ((s.update_minter new_minter 0).mint recipient amount).1 ≠ Except.ok () ∧
      (s.total_supply + amount ≤ UINT128_MAX →
        ((s.update_minter new_minter 0).mint recipient amount).1 =
          Except.error StdError.capExceededMint)) := by
  refine ⟨by simp [State.execute, h], by simp [State.execute, h],
    fun capOpt => by simp [State.execute, h, State.update_minter, State.update_cap],
    rfl, rfl, by simp [State.minter_allowed, State.update_minter, State.update_cap],
    fun recipient amount ha => ?_⟩
  have hpos : 0 < s.total_supply + amount := lt_of_lt_of_le ha (Nat.le_add_left amount s.total_supply)
  by_cases hov : s.total_supply + amount ≤ UINT128_MAX
  · constructor
    · simp [State.update_minter, State.update_cap, State.mint, addU128, hov, hpos]
    · intro hov2
      simp [State.update_minter, State.update_cap, State.mint, addU128, hov, hpos]
  · constructor
    · simp [State.update_minter, State.update_cap, State.mint, addU128, hov]
    · intro hov2
      exact absurd hov2 hov

/-- Witness for C10: in a fresh ledger with minter cap 5, the minter
hands the role to `bob` with no cap; the command succeeds, and under the
installed zero cap `bob`'s ledger refuses to mint 3 tokens to `alice`
with `CapExceeded`. -/
theorem update_minter_none_installs_zero_cap_witness :
    ((initialState minterAddr 5).execute minterAddr
        (HandleMsg.UpdateMinter bob none)).1 = Except.ok () ∧
    (((initialState minterAddr 5).update_minter bob 0).minter_allowed bob = true) ∧
    (((initialState minterAddr 5).update_minter bob 0).mint alice 3).1 =
      Except.error StdError.capExceededMint :=
  have h := update_minter_none_installs_zero_cap (initialState minterAddr 5) minterAddr bob
    (by decide)
  ⟨h.1, h.2.2.2.2.2.1, (h.2.2.2.2.2.2 alice 3 (by decide)).2 (by decide)⟩
